import Mathlib

/-!
Shallow embedding of the trivia backend (src/backend/flaskr/__init__.py).

The relational store is modelled as in-memory lists of rows; each request
handler becomes a pure function from the store and the parsed request
parameters to either a success payload or an aborted HTTP error code
(`Except Nat`).  An `Except.error c` models `abort(c)`: the response is then
produced by the registered error handler for `c`.  An `Except.error` result
carries no updated store, matching the fact that the session is closed
without a commit (and rolled back where the handler does so) on every error
path.

The ORM layer (`models.py`) is not part of src/; the few primitives the
handlers use from it (`Category.query.get`, `Question.query.get`,
`question.delete()`, `column.ilike`) are modelled from the spec where noted.
-/

namespace Trivia

/-- A row of the `categories` table: `id` (integer primary key) and `type`
(display name).  (spec §3, models.py outside src). -/
structure Category where
  id : Int
  type : String
  deriving DecidableEq, Repr

/-- A row of the `questions` table, with the five fields the API exposes
(`format_question` in `flaskr/__init__.py` picks exactly these). -/
structure Question where
  id : Int
  question : String
  answer : String
  difficulty : Int
  category : Int
  deriving DecidableEq, Repr

/-- The persistent store: the two tables. -/
structure Store where
  categories : List Category
  questions : List Question
  deriving DecidableEq, Repr

/-- The uniform JSON error envelope produced by the error handlers
(`flaskr/__init__.py` lines 236-288). -/
structure ErrorEnvelope where
  success : Bool
  error : Nat
  message : String
  deriving DecidableEq, Repr

/-- The six registered error handlers (lines 236-288): for an aborted code,
the JSON envelope together with the HTTP status of the response.  The
handlers for 400, 404, 405, 408 and 422 return `jsonify(...), <code>`; the
500 handler (lines 281-288) returns only `jsonify(...)` with no status
element, so Flask responds with its default HTTP status 200.  Any exception
without a `code` attribute is routed here as 500
(`getattr(e, 'code', 500)`), hence the catch-all arm. -/
def errorHandlerResponse (code : Nat) : ErrorEnvelope × Nat :=
  match code with
  | 400 => ({ success := false, error := 400, message := "invalid request" }, 400)
  | 404 => ({ success := false, error := 404, message := "not found" }, 404)
  | 405 => ({ success := false, error := 405, message := "method not allowed" }, 405)
  | 408 => ({ success := false, error := 408, message := "request timed out" }, 408)
  | 422 => ({ success := false, error := 422, message := "could not process the request" }, 422)
  | _ => ({ success := false, error := 500, message := "internal server error" }, 200)

/-- The HTTP status of a handler outcome: a successful handler returns its
own status tuple element (`okStatus`); an aborted code is answered by the
matching error handler. -/
def httpStatusOfResult {α : Type} (okStatus : Nat) : Except Nat α → Nat
  | Except.ok _ => okStatus
  | Except.error c => (errorHandlerResponse c).2

/-- Python truthiness of an optional integer parameter: `None` and `0` are
falsy (`if current_category:`, `if not x:`). -/
def truthyInt : Option Int → Bool
  | none => false
  | some n => n != 0

/-- Python truthiness of an optional string field: `None` and `""` are
falsy. -/
def truthyStr : Option String → Bool
  | none => false
  | some s => s != ""

/-- Modelled from the spec: `Category.query.get(i)` — primary-key lookup in
the `categories` table (models.py is outside src). -/
def categoryGet (s : Store) (i : Int) : Option Category :=
  s.categories.find? (fun c => c.id == i)

/-- Modelled from the spec: `Question.query.get(i)` — primary-key lookup in
the `questions` table (models.py is outside src). -/
def questionGet (s : Store) (i : Int) : Option Question :=
  s.questions.find? (fun q => q.id == i)

/-- Auxiliary for the search filter: does `needle` occur as a prefix of
`hay`? -/
def startsWithList : List Char → List Char → Bool
  | [], _ => true
  | _ :: _, [] => false
  | a :: as, b :: bs => a == b && startsWithList as bs

/-- Lower-casing of a character sequence (ASCII letters only, matching the
SQL `lower`/`ILIKE` folding on the repository's data). -/
def lowerChars (l : List Char) : List Char := l.map Char.toLower

/-- Modelled from the spec: `Question.question.ilike('%term%')` —
case-insensitive substring containment of the search term in the question
text (SQLAlchemy/models.py are outside src; SQL LIKE metacharacters inside
the term are not modelled). -/
def ilikeContains (text term : String) : Bool :=
  (List.range ((lowerChars text.data).length + 1)).any fun i =>
    startsWithList (lowerChars term.data) ((lowerChars text.data).drop i)

/-- Page size: `QUESTIONS_PER_PAGE = 10`. -/
def QUESTIONS_PER_PAGE : Nat := 10

/-- The optional category filter of `get_paginated_questions`
(lines 110-112): applied only when `current_category` is truthy. -/
def categoryFiltered (questions : List Question) (current_category : Option Int) :
    List Question :=
  if truthyInt current_category then
    questions.filter (fun q => q.category == current_category.getD 0)
  else questions

/-- The optional search filter of `get_paginated_questions`
(lines 113-117): applied only when `search` is non-empty. -/
def searchFiltered (questions : List Question) (search : String) : List Question :=
  if search != "" then questions.filter (fun q => ilikeContains q.question search)
  else questions

/-- The successive optional filters of `get_paginated_questions`
(lines 108-117): the category filter, then the search filter. -/
def appliedFilters (s : Store) (current_category : Option Int) (search : String) :
    List Question :=
  searchFiltered (categoryFiltered s.questions current_category) search

/-- The 200-payload of `GET /questions` (lines 126-132). -/
structure QuestionsPage where
  questions : List Question
  total_questions : Nat
  categories : List (Int × String)
  current_category : Option Int
  deriving DecidableEq, Repr

/-- `GET /questions` (lines 75-138).  `pageArg` is the parsed `page`
parameter (absent → default 1); `offset = (page-1)*10`.  The unfiltered
total count is computed first and an out-of-range offset aborts with 404;
a truthy `current_category` naming no existing category aborts with 404;
the filters are applied, then `limit(10).offset(offset)`.  A negative SQL
offset (page ≤ 0) fails inside the database when the query runs, i.e.
after the category check; it is modelled as an internal abort 500. -/
def get_paginated_questions (s : Store) (pageArg : Option Int)
    (current_category : Option Int) (search : String) : Except Nat QuestionsPage :=
  let page := pageArg.getD 1
  let offset : Int := (page - 1) * (QUESTIONS_PER_PAGE : Int)
  let questions_total_count : Nat := s.questions.length
  if offset ≥ (questions_total_count : Int) then
    Except.error 404
  else if truthyInt current_category = true ∧ categoryGet s (current_category.getD 0) = none then
    Except.error 404
  else if offset < 0 then
    Except.error 500
  else
    Except.ok
      { questions := ((appliedFilters s current_category search).drop offset.toNat).take QUESTIONS_PER_PAGE,
        total_questions := questions_total_count,
        categories := s.categories.map fun c => (c.id, c.type),
        current_category := current_category }

/-- `GET /categories` (lines 38-55): always succeeds with the id-to-type
mapping and status 200 (the only failure path is an internal database
error, absent from the pure model). -/
def get_categories (s : Store) : Except Nat (List (Int × String)) :=
  Except.ok (s.categories.map fun c => (c.id, c.type))

/-- `DELETE /questions/{id}` (lines 142-165): 404 when no row has the id;
otherwise the row is deleted (`question.delete()`, modelled from the spec:
delete the row and commit; models.py is outside src) and the handler
returns success with status 200. -/
def delete_question (s : Store) (question_id : Int) : Except Nat Store :=
  match questionGet s question_id with
  | none => Except.error 404
  | some _ =>
      Except.ok { s with questions := s.questions.eraseP (fun q => q.id == question_id) }

/-- The parsed JSON body of `POST /questions`: `body.get(field, None)` for
each of the four fields. -/
structure QuestionBody where
  question : Option String
  answer : Option String
  difficulty : Option Int
  category : Option Int
  deriving DecidableEq, Repr

/-- `POST /questions` (lines 169-210): aborts 422 when any of the four
fields is falsy (missing, `0`, or `""`) or when `category` names no
existing category; otherwise inserts the row (with the database-assigned
primary key `newId`), commits, and returns success with status 201. -/
def add_question (s : Store) (b : QuestionBody) (newId : Int) : Except Nat Store :=
  if (!truthyStr b.question || !truthyStr b.answer
        || !truthyInt b.difficulty || !truthyInt b.category)
      || (categoryGet s (b.category.getD 0)).isNone then
    Except.error 422
  else
    Except.ok { s with questions := s.questions ++
      [{ id := newId, question := b.question.getD "", answer := b.answer.getD "",
         difficulty := b.difficulty.getD 0, category := b.category.getD 0 }] }

/-- A small concrete store used to instantiate the quantified theorems. -/
def sampleStore : Store :=
  { categories := [{ id := 1, type := "Science" }, { id := 2, type := "Art" }],
    questions :=
      [{ id := 1, question := "How much wood could a Woodchuck chuck?",
         answer := "A lot", difficulty := 2, category := 1 },
       { id := 2, question := "How do magnets work?", answer := "Magic",
         difficulty := 1, category := 2 },
       { id := 3, question := "What boils at 100C?", answer := "Water",
         difficulty := 1, category := 1 }] }

/-- A store whose eleven questions all sit in category 1, while category 2
exists and is empty; used to exhibit an in-range page whose filters match
nothing. -/
def wideStore : Store :=
  { categories := [{ id := 1, type := "Science" }, { id := 2, type := "Art" }],
    questions := (List.range 11).map fun i =>
      { id := (i : Int), question := "q", answer := "a", difficulty := 1, category := 1 } }

/-!  Helper lemmas. -/

lemma startsWithList_iff (l₁ l₂ : List Char) :
    startsWithList l₁ l₂ = true ↔ ∃ t, l₂ = l₁ ++ t := by
  induction l₁ generalizing l₂ with
  | nil => simp [startsWithList]
  | cons a as ih =>
    cases l₂ with
    | nil => simp [startsWithList]
    | cons b bs =>
      simp only [startsWithList, Bool.and_eq_true, beq_iff_eq, ih, List.cons_append,
        List.cons.injEq]
      constructor
      · rintro ⟨rfl, t, rfl⟩
        exact ⟨t, rfl, rfl⟩
      · rintro ⟨t, rfl, rfl⟩
        exact ⟨rfl, t, rfl⟩

lemma ilikeContains_iff (text term : String) :
    ilikeContains text term = true ↔
      ∃ l r : List Char, lowerChars text.data = l ++ lowerChars term.data ++ r := by
  unfold ilikeContains
  rw [List.any_eq_true]
  constructor
  · rintro ⟨i, _, hp⟩
    rw [startsWithList_iff] at hp
    obtain ⟨t, ht⟩ := hp
    refine ⟨(lowerChars text.data).take i, t, ?_⟩
    conv_lhs => rw [← List.take_append_drop i (lowerChars text.data)]
    rw [ht, List.append_assoc]
  · rintro ⟨l, r, h⟩
    refine ⟨l.length, ?_, ?_⟩
    · rw [List.mem_range]
      have := congrArg List.length h
      simp only [List.length_append] at this
      omega
    · rw [startsWithList_iff]
      refine ⟨r, ?_⟩
      rw [h, List.append_assoc, List.drop_left]

/-- Normal form of a successful `GET /questions`. -/
lemma get_paginated_questions_eq_ok (s : Store) (page : Int) (cc : Option Int)
    (search : String)
    (hlt : (page - 1) * 10 < (s.questions.length : Int))
    (hnn : 0 ≤ (page - 1) * 10)
    (hcat : ¬(truthyInt cc = true ∧ categoryGet s (cc.getD 0) = none)) :
    get_paginated_questions s (some page) cc search =
      Except.ok
        { questions := ((appliedFilters s cc search).drop ((page - 1) * 10).toNat).take 10,
          total_questions := s.questions.length,
          categories := s.categories.map fun c => (c.id, c.type),
          current_category := cc } := by
  have h1 : ¬((page - 1) * ((QUESTIONS_PER_PAGE : Nat) : Int) ≥ (s.questions.length : Int)) := by
    simp only [QUESTIONS_PER_PAGE]; push_cast; omega
  have h3 : ¬((page - 1) * ((QUESTIONS_PER_PAGE : Nat) : Int) < 0) := by
    simp only [QUESTIONS_PER_PAGE]; push_cast; omega
  unfold get_paginated_questions
  simp only [Option.getD_some]
  rw [if_neg h1, if_neg hcat, if_neg h3]
  simp only [QUESTIONS_PER_PAGE]
  norm_num

/-- Every question on a returned page survived both optional filters. -/
lemma mem_page_filters {s : Store} {cc : Option Int} {search : String}
    {off n : Nat} {q : Question}
    (h : q ∈ ((appliedFilters s cc search).drop off).take n) :
    (truthyInt cc = true → q.category = cc.getD 0) ∧
    (search ≠ "" → ilikeContains q.question search = true) := by
  have h1 : q ∈ appliedFilters s cc search :=
    List.mem_of_mem_drop (List.mem_of_mem_take h)
  unfold appliedFilters searchFiltered at h1
  have h2 : q ∈ categoryFiltered s.questions cc ∧
      (search ≠ "" → ilikeContains q.question search = true) := by
    by_cases hs : (search != "") = true
    · rw [if_pos hs] at h1
      exact ⟨(List.mem_filter.mp h1).1, fun _ => (List.mem_filter.mp h1).2⟩
    · rw [if_neg hs] at h1
      refine ⟨h1, fun hne => absurd ?_ hs⟩
      simp [bne_iff_ne, hne]
  refine ⟨fun htr => ?_, h2.2⟩
  have h3 := h2.1
  unfold categoryFiltered at h3
  rw [if_pos htr] at h3
  have := (List.mem_filter.mp h3).2
  simpa [beq_iff_eq] using this

/-- After erasing the row with a given id from a list with pairwise-distinct
ids, no row with that id remains. -/
lemma find?_eraseP_id_none (l : List Question) (qid : Int)
    (h : (l.map Question.id).Nodup) :
    (l.eraseP (fun q => q.id == qid)).find? (fun q => q.id == qid) = none := by
  induction l with
  | nil => rfl
  | cons x xs ih =>
    rw [List.map_cons, List.nodup_cons] at h
    by_cases hx : (x.id == qid) = true
    · rw [List.eraseP_cons_of_pos (p := fun (q : Question) => q.id == qid) hx]
      apply List.find?_eq_none.mpr
      intro y hy
      simp only [beq_iff_eq] at hx ⊢
      intro hyid
      exact h.1 (by rw [← hx] at hyid; rw [← hyid]; exact List.mem_map_of_mem Question.id hy)
    · rw [List.eraseP_cons_of_neg (p := fun (q : Question) => q.id == qid) hx,
        List.find?_cons_of_neg (p := fun (q : Question) => q.id == qid) _ hx]
      exact ih h.2

/-!  Claim theorems. -/

/-- Claim C1 (code bug): the handlers for 400, 404, 405, 408 and 422 return
the uniform envelope with the matching HTTP status and message, but the 500
handler returns its envelope with HTTP status 200 — it omits the status
element of the return tuple, so Flask falls back to the default 200.  An
exception without a `code` attribute is routed to this handler as 500. -/
theorem error_envelope_statuses :
    errorHandlerResponse 400 =
      ({ success := false, error := 400, message := "invalid request" }, 400) ∧
    errorHandlerResponse 404 =
      ({ success := false, error := 404, message := "not found" }, 404) ∧
    errorHandlerResponse 405 =
      ({ success := false, error := 405, message := "method not allowed" }, 405) ∧
    errorHandlerResponse 408 =
      ({ success := false, error := 408, message := "request timed out" }, 408) ∧
    errorHandlerResponse 422 =
      ({ success := false, error := 422, message := "could not process the request" }, 422) ∧
    errorHandlerResponse 500 =
      ({ success := false, error := 500, message := "internal server error" }, 200) ∧
    (errorHandlerResponse 500).2 ≠ 500 := by
  decide

/-- Claim C3: `GET /questions` computes the unfiltered total count first,
and whenever the offset `(page-1)*10` reaches that count the request is
aborted with 404 — before and regardless of any category or search
parameter. -/
theorem out_of_range_page_404 (s : Store) (page : Int) (cc : Option Int)
    (search : String)
    (h : (s.questions.length : Int) ≤ (page - 1) * 10) :
    get_paginated_questions s (some page) cc search = Except.error 404 ∧
    httpStatusOfResult 200 (get_paginated_questions s (some page) cc search) = 404 := by
  have key : get_paginated_questions s (some page) cc search = Except.error 404 := by
    unfold get_paginated_questions
    simp only [Option.getD_some]
    rw [if_pos]
    show (s.questions.length : Int) ≤ (page - 1) * ((QUESTIONS_PER_PAGE : Nat) : Int)
    simp only [QUESTIONS_PER_PAGE]
    push_cast
    omega
  exact ⟨key, by rw [key]; rfl⟩

/-- Claim C3, instantiated: `page=1000` on the three-question sample store
is out of range and is answered with 404. -/
theorem out_of_range_page_404_witness :
    get_paginated_questions sampleStore (some 1000) none "" = Except.error 404 :=
  (out_of_range_page_404 sampleStore 1000 none "" (by decide)).1

/-- Claim C9: `GET /categories` returns status 200 and a success body whose
categories object maps every existing category id to its type string, with
no other entries. -/
theorem get_categories_correct (s : Store) :
    get_categories s = Except.ok (s.categories.map fun c => (c.id, c.type)) ∧
    httpStatusOfResult 200 (get_categories s) = 200 ∧
    ∀ i t, (i, t) ∈ s.categories.map (fun c => (c.id, c.type)) ↔
      ∃ c ∈ s.categories, c.id = i ∧ c.type = t := by
  refine ⟨rfl, rfl, fun i t => ?_⟩
  simp only [List.mem_map, Prod.mk.injEq]

/-- Claim C2: for a store with `T` questions and an in-range page `N`
(`(N-1)*10 < T`), `GET /questions?page=N` with no category or search filter
returns status 200 with exactly `min 10 (T - (N-1)*10)` questions, namely
those starting at offset `(N-1)*10`; and the page parameter defaults to 1
when absent. -/
theorem questions_page_within_range (s : Store) (N : Nat) (h1 : 1 ≤ N)
    (h2 : (N - 1) * 10 < s.questions.length) :
    get_paginated_questions s (some (N : Int)) none "" =
      Except.ok { questions := (s.questions.drop ((N - 1) * 10)).take 10,
                  total_questions := s.questions.length,
                  categories := s.categories.map fun c => (c.id, c.type),
                  current_category := none } ∧
    ((s.questions.drop ((N - 1) * 10)).take 10).length =
      min 10 (s.questions.length - (N - 1) * 10) ∧
    httpStatusOfResult 200 (get_paginated_questions s (some (N : Int)) none "") = 200 ∧
    ∀ cc search, get_paginated_questions s none cc search =
      get_paginated_questions s (some 1) cc search := by
  have hlt : ((N : Int) - 1) * 10 < (s.questions.length : Int) := by omega
  have hnn : 0 ≤ ((N : Int) - 1) * 10 := by omega
  have hcat : ¬(truthyInt none = true ∧
      categoryGet s ((none : Option Int).getD 0) = none) := by
    simp [truthyInt]
  have hok := get_paginated_questions_eq_ok s (N : Int) none "" hlt hnn hcat
  have htn : (((N : Int) - 1) * 10).toNat = (N - 1) * 10 := by omega
  have hfil : appliedFilters s none "" = s.questions := rfl
  rw [hok, htn, hfil]
  refine ⟨rfl, ?_, rfl, fun cc search => rfl⟩
  rw [List.length_take, List.length_drop]

/-- Claim C2, instantiated at `N = 1` on the three-question sample store. -/
theorem questions_page_within_range_witness :
    get_paginated_questions sampleStore (some ((1 : Nat) : Int)) none "" =
      Except.ok { questions := (sampleStore.questions.drop ((1 - 1) * 10)).take 10,
                  total_questions := sampleStore.questions.length,
                  categories := sampleStore.categories.map fun c => (c.id, c.type),
                  current_category := none } :=
  (questions_page_within_range sampleStore 1 (by decide) (by decide)).1

/-- Claim C10: the `total_questions` field of every successful
`GET /questions` response is the unfiltered count of all questions, and the
out-of-range check compares the offset against this unfiltered count;
consequently a request whose filters match fewer questions than the offset,
but whose offset is below the unfiltered total, succeeds with status 200
and an empty questions list (`wideStore`, `page=2`, `current_category=2`). -/
theorem total_questions_is_unfiltered_count :
    (∀ (s : Store) (page cc : Option Int) (search : String) (r : QuestionsPage),
        get_paginated_questions s page cc search = Except.ok r →
        r.total_questions = s.questions.length) ∧
    (∃ r : QuestionsPage,
        get_paginated_questions wideStore (some 2) (some 2) "" = Except.ok r ∧
        r.questions = [] ∧
        r.total_questions = wideStore.questions.length ∧
        httpStatusOfResult 200 (get_paginated_questions wideStore (some 2) (some 2) "") = 200) := by
  constructor
  · intro s page cc search r h
    simp only [get_paginated_questions] at h
    split at h
    · cases h
    split at h
    · cases h
    split at h
    · cases h
    cases h
    rfl
  · refine ⟨{ questions := [], total_questions := 11,
              categories := [(1, "Science"), (2, "Art")],
              current_category := some 2 }, rfl, rfl, rfl, rfl⟩

/-- Claim C10, instantiated: the page returned for `wideStore` with
`page=2` and `current_category=2` reports the unfiltered total of 11. -/
theorem total_questions_is_unfiltered_count_witness :
    ({ questions := [], total_questions := 11,
       categories := [(1, "Science"), (2, "Art")],
       current_category := some 2 } : QuestionsPage).total_questions =
      wideStore.questions.length :=
  total_questions_is_unfiltered_count.1 wideStore (some 2) (some 2) ""
    { questions := [], total_questions := 11,
      categories := [(1, "Science"), (2, "Art")],
      current_category := some 2 } rfl

/-- Claim C4, counterexample: `current_category=0` is given and matches no
existing category id of the sample store, yet the request is not answered
with 404 — `if current_category:` treats the falsy value 0 as absent, so
the request succeeds unfiltered. -/
theorem current_category_zero_counterexample :
    sampleStore.categories.all (fun c => c.id != 0) = true ∧
    get_paginated_questions sampleStore none (some 0) "" ≠ Except.error 404 ∧
    get_paginated_questions sampleStore none (some 0) "" =
      Except.ok { questions := sampleStore.questions,
                  total_questions := 3,
                  categories := [(1, "Science"), (2, "Art")],
                  current_category := some 0 } := by
  refine ⟨rfl, ?_, rfl⟩
  intro h
  cases h

/-- Claim C4 as amended: for every given NONZERO `current_category` that
matches no existing category id the request is answered with 404 (a zero
value is treated as if the parameter were absent), and whenever a request
with a nonzero `current_category` succeeds, every returned question has
that category. -/
theorem current_category_validated (s : Store) (page : Option Int) (cc : Int)
    (search : String) (hcc : cc ≠ 0) :
    ((∀ c ∈ s.categories, c.id ≠ cc) →
        get_paginated_questions s page (some cc) search = Except.error 404) ∧
    (∀ r, get_paginated_questions s page (some cc) search = Except.ok r →
        ∀ q ∈ r.questions, q.category = cc) := by
  have htr : truthyInt (some cc) = true := by
    simp only [truthyInt, bne_iff_ne, ne_eq]
    exact hcc
  constructor
  · intro hnone
    have hget : categoryGet s ((some cc : Option Int).getD 0) = none := by
      simp only [Option.getD_some]
      exact List.find?_eq_none.mpr fun c hc => by
        simp only [beq_iff_eq]
        exact hnone c hc
    simp only [get_paginated_questions]
    split
    · rfl
    · rw [if_pos ⟨htr, hget⟩]
  · intro r h q hq
    simp only [get_paginated_questions] at h
    split at h
    · cases h
    split at h
    · cases h
    split at h
    · cases h
    cases h
    have := (mem_page_filters hq).1 htr
    simpa using this

/-- Claim C4 as amended, instantiated: `current_category=99` names no
category of the sample store and is answered with 404. -/
theorem current_category_validated_witness :
    get_paginated_questions sampleStore none (some 99) "" = Except.error 404 :=
  (current_category_validated sampleStore none 99 "" (by decide)).1 (by decide)

/-- Claim C5: with a non-empty search parameter, a successful
`GET /questions` returns exactly the page window (offset `(page-1)*10`,
limit 10) of the questions surviving the category filter AND containing
the search term as a case-insensitive substring; every returned question
contains the term case-insensitively, and also matches the category filter
when one was given. -/
theorem search_filter_correct (s : Store) (page : Nat) (cc : Option Int)
    (search : String) (r : QuestionsPage) (h1 : 1 ≤ page) (hs : search ≠ "")
    (hr : get_paginated_questions s (some (page : Int)) cc search = Except.ok r) :
    r.questions =
      (((categoryFiltered s.questions cc).filter
          (fun q => ilikeContains q.question search)).drop ((page - 1) * 10)).take 10 ∧
    (∀ q ∈ r.questions, ∃ l rr : List Char,
        lowerChars q.question.data = l ++ lowerChars search.data ++ rr) ∧
    (∀ q ∈ r.questions, truthyInt cc = true → q.category = cc.getD 0) := by
  have hfil : appliedFilters s cc search =
      (categoryFiltered s.questions cc).filter
        (fun q => ilikeContains q.question search) := by
    unfold appliedFilters searchFiltered
    rw [if_pos]
    simp only [bne_iff_ne, ne_eq]
    exact hs
  have htn : (((page : Int) - 1) * 10).toNat = (page - 1) * 10 := by omega
  simp only [get_paginated_questions, Option.getD_some] at hr
  split at hr
  · cases hr
  split at hr
  · cases hr
  split at hr
  · cases hr
  have hq : r.questions =
      ((appliedFilters s cc search).drop
          ((((page : Int) - 1) * (QUESTIONS_PER_PAGE : Int)).toNat)).take QUESTIONS_PER_PAGE := by
    cases hr
    rfl
  refine ⟨?_, ?_, ?_⟩
  · rw [hq, hfil]
    norm_num [QUESTIONS_PER_PAGE, htn]
  · intro q hmem
    rw [hq] at hmem
    have := (mem_page_filters hmem).2 hs
    exact (ilikeContains_iff q.question search).mp this
  · intro q hmem htr
    rw [hq] at hmem
    exact (mem_page_filters hmem).1 htr

/-- Claim C5, instantiated: searching `"woodchuck"` on the sample store
(whose first question contains `"Woodchuck"`) returns exactly that
question. -/
theorem search_filter_correct_witness :
    ({ questions :=
         [{ id := 1, question := "How much wood could a Woodchuck chuck?",
            answer := "A lot", difficulty := 2, category := 1 }],
       total_questions := 3,
       categories := [(1, "Science"), (2, "Art")],
       current_category := none } : QuestionsPage).questions =
      (((categoryFiltered sampleStore.questions none).filter
          (fun q => ilikeContains q.question "woodchuck")).drop ((1 - 1) * 10)).take 10 :=
  (search_filter_correct sampleStore 1 none "woodchuck"
    { questions :=
        [{ id := 1, question := "How much wood could a Woodchuck chuck?",
           answer := "A lot", difficulty := 2, category := 1 }],
      total_questions := 3,
      categories := [(1, "Science"), (2, "Art")],
      current_category := none } (by decide) (by decide) (by rfl)).1

/-- Claim C6: `POST /questions` is answered with 422 — and no row is
inserted (an aborted handler returns no updated store; the session is
closed without a commit) — whenever any of the four fields is missing or
falsy (difficulty 0 and empty strings included), or the category id names
no existing category. -/
theorem add_question_invalid_422 (s : Store) (b : QuestionBody) (newId : Int)
    (h : b.question = none ∨ b.question = some "" ∨
         b.answer = none ∨ b.answer = some "" ∨
         b.difficulty = none ∨ b.difficulty = some 0 ∨
         b.category = none ∨ b.category = some 0 ∨
         (∀ c ∈ s.categories, b.category ≠ some c.id)) :
    add_question s b newId = Except.error 422 ∧
    httpStatusOfResult 201 (add_question s b newId) = 422 := by
  have key : add_question s b newId = Except.error 422 := by
    unfold add_question
    rw [if_pos]
    rcases h with h | h | h | h | h | h | h | h | h
    · simp [truthyStr, h]
    · simp [truthyStr, h]
    · simp [truthyStr, h]
    · simp [truthyStr, h]
    · simp [truthyInt, h]
    · simp [truthyInt, h]
    · simp [truthyInt, h]
    · simp [truthyInt, h]
    · cases hbc : b.category with
      | none => simp [truthyInt, hbc]
      | some v =>
        rcases eq_or_ne v 0 with rfl | hv
        · simp [truthyInt, hbc]
        · have hget : categoryGet s v = none :=
            List.find?_eq_none.mpr fun c hc => by
              simp only [beq_iff_eq]
              intro he
              exact (h c hc) (by rw [hbc, he])
          simp [hbc, hget]
  exact ⟨key, by rw [key]; rfl⟩

/-- Claim C6, instantiated: a body whose `difficulty` is 0 is rejected with
422 even though all four fields are present. -/
theorem add_question_invalid_422_witness :
    add_question sampleStore
      { question := some "How do magnets work?", answer := some "Magic",
        difficulty := some 0, category := some 1 } 99 = Except.error 422 :=
  (add_question_invalid_422 sampleStore
    { question := some "How do magnets work?", answer := some "Magic",
      difficulty := some 0, category := some 1 } 99
    (Or.inr (Or.inr (Or.inr (Or.inr (Or.inr (Or.inl rfl))))))).1

/-- Claim C7: when all four fields are present and truthy and the category
exists, `POST /questions` appends exactly one new row with those field
values (with the database-assigned fresh primary key), commits, and
returns success with status 201; the row is then retrievable by its id
with matching fields. -/
theorem add_question_valid_201 (s : Store) (b : QuestionBody) (newId : Int)
    (q a : String) (d cat : Int)
    (hq : b.question = some q) (hq0 : q ≠ "")
    (ha : b.answer = some a) (ha0 : a ≠ "")
    (hd : b.difficulty = some d) (hd0 : d ≠ 0)
    (hc : b.category = some cat) (hc0 : cat ≠ 0)
    (hex : ∃ c ∈ s.categories, c.id = cat)
    (hfresh : ∀ qq ∈ s.questions, qq.id ≠ newId) :
    add_question s b newId = Except.ok
      { s with questions := s.questions ++
          [{ id := newId, question := q, answer := a,
             difficulty := d, category := cat }] } ∧
    httpStatusOfResult 201 (add_question s b newId) = 201 ∧
    questionGet
      { s with questions := s.questions ++
          [{ id := newId, question := q, answer := a,
             difficulty := d, category := cat }] } newId =
      some { id := newId, question := q, answer := a,
             difficulty := d, category := cat } := by
  have hget : ¬(categoryGet s cat).isNone = true := by
    obtain ⟨c, hcm, hcid⟩ := hex
    cases hfind : categoryGet s cat with
    | some _ => simp
    | none =>
      have := List.find?_eq_none.mp hfind c hcm
      simp only [beq_iff_eq] at this
      exact absurd hcid this
  have key : add_question s b newId = Except.ok
      { s with questions := s.questions ++
          [{ id := newId, question := q, answer := a,
             difficulty := d, category := cat }] } := by
    unfold add_question
    rw [hq, ha, hd, hc]
    rw [if_neg]
    · rfl
    · simp only [truthyStr, truthyInt, Option.getD_some, Bool.or_eq_true,
        Bool.not_eq_true', bne_eq_false_iff_eq]
      push_neg
      exact ⟨⟨⟨⟨hq0, ha0⟩, hd0⟩, hc0⟩, by simpa using hget⟩
  refine ⟨key, by rw [key]; rfl, ?_⟩
  unfold questionGet
  simp only [List.find?_append]
  have hnone : s.questions.find? (fun qq => qq.id == newId) = none :=
    List.find?_eq_none.mpr fun x hx => by
      simp only [beq_iff_eq]
      exact hfresh x hx
  rw [hnone]
  simp [List.find?]

/-- Claim C7, instantiated: a fully valid body is inserted into the sample
store and retrievable under the fresh id 10. -/
theorem add_question_valid_201_witness :
    add_question sampleStore
      { question := some "New Q", answer := some "New A",
        difficulty := some 3, category := some 2 } 10 =
      Except.ok { sampleStore with questions := sampleStore.questions ++
        [{ id := 10, question := "New Q", answer := "New A",
           difficulty := 3, category := 2 }] } :=
  (add_question_valid_201 sampleStore
    { question := some "New Q", answer := some "New A",
      difficulty := some 3, category := some 2 } 10
    "New Q" "New A" 3 2 rfl (by decide) rfl (by decide) rfl (by decide)
    rfl (by decide) (by decide) (by decide)).1

/-- Claim C8: `DELETE /questions/{id}` on an id with no matching question
is answered with 404 (the store is untouched: an aborted handler returns
no updated store and the transaction is rolled back); on a matching id the
row is deleted, the handler returns success with status 200, and a
subsequent lookup of the id finds nothing (ids are pairwise distinct: the
primary-key invariant). -/
theorem delete_question_correct (s : Store) (qid : Int)
    (hpk : (s.questions.map Question.id).Nodup) :
    ((∀ q ∈ s.questions, q.id ≠ qid) →
        delete_question s qid = Except.error 404 ∧
        httpStatusOfResult 200 (delete_question s qid) = 404) ∧
    (∀ q0, questionGet s qid = some q0 →
        delete_question s qid = Except.ok
          { s with questions := s.questions.eraseP (fun q => q.id == qid) } ∧
        httpStatusOfResult 200 (delete_question s qid) = 200 ∧
        questionGet
          { s with questions := s.questions.eraseP (fun q => q.id == qid) } qid =
          none) := by
  constructor
  · intro hnone
    have hg : questionGet s qid = none :=
      List.find?_eq_none.mpr fun x hx => by
        simp only [beq_iff_eq]
        exact hnone x hx
    have key : delete_question s qid = Except.error 404 := by
      unfold delete_question
      rw [hg]
    exact ⟨key, by rw [key]; rfl⟩
  · intro q0 hsome
    have key : delete_question s qid = Except.ok
        { s with questions := s.questions.eraseP (fun q => q.id == qid) } := by
      unfold delete_question
      rw [hsome]
    refine ⟨key, by rw [key]; rfl, ?_⟩
    unfold questionGet
    exact find?_eraseP_id_none s.questions qid hpk

/-- Claim C8, instantiated: deleting id 2 from the sample store succeeds
and a subsequent lookup of id 2 finds nothing. -/
theorem delete_question_correct_witness :
    delete_question sampleStore 2 = Except.ok
      { sampleStore with
        questions := sampleStore.questions.eraseP (fun q => q.id == 2) } :=
  ((delete_question_correct sampleStore 2 (by decide)).2
    { id := 2, question := "How do magnets work?", answer := "Magic",
      difficulty := 1, category := 2 } (by decide)).1

end Trivia
